import Mathlib

/-!
Verification of the route-ordering and route-calculation subsystem of the
Route-Optimizer repository (src/sw.js), as a shallow embedding in Lean 4.

JavaScript numbers are modelled by real numbers; network I/O (fetch) is
modelled by oracle functions passed explicitly to each embedded function.
-/

set_option maxHeartbeats 1000000

namespace RouteOptimizer

/-! ## Definitions -/

/-- A latitude/longitude pair in decimal degrees. -/
structure Coord where
  lat : ℝ
  lng : ℝ

/-- Validity invariant for coordinates (spec §3). -/
def validCoord (c : Coord) : Prop :=
  -90 ≤ c.lat ∧ c.lat ≤ 90 ∧ -180 ≤ c.lng ∧ c.lng ≤ 180

/-- Embeds `toRad(deg)` from src/sw.js: `deg * Math.PI / 180`. -/
noncomputable def toRad (deg : ℝ) : ℝ := deg * Real.pi / 180

/-- Embeds JavaScript `Math.atan2(y, x)` by its standard piecewise
definition over the reals (`Math.atan2(0, 0) = 0`, matching the last case). -/
noncomputable def atan2 (y x : ℝ) : ℝ :=
  if 0 < x then Real.arctan (y / x)
  else if x < 0 then
    (if 0 ≤ y then Real.arctan (y / x) + Real.pi else Real.arctan (y / x) - Real.pi)
  else
    (if 0 < y then Real.pi / 2 else if y < 0 then -(Real.pi / 2) else 0)

/-- Embeds `calculateDistance(lat1, lon1, lat2, lon2)` from src/sw.js
(haversine formula, Earth radius 6371 km, result in kilometers). -/
noncomputable def calculateDistance (lat1 lon1 lat2 lon2 : ℝ) : ℝ :=
  let dLat := toRad (lat2 - lat1)
  let dLon := toRad (lon2 - lon1)
  let a := Real.sin (dLat / 2) * Real.sin (dLat / 2) +
    Real.cos (toRad lat1) * Real.cos (toRad lat2) *
      (Real.sin (dLon / 2) * Real.sin (dLon / 2))
  let c := 2 * atan2 (Real.sqrt a) (Real.sqrt (1 - a))
  6371 * c

/-- A destination entry as consumed by `findOptimalOrder`: a session-unique
numeric id, a locked flag, and a resolved location. -/
structure Dest where
  id : ℕ
  locked : Bool
  location : Coord

/-- The distance computed inside `findOptimalOrder`'s selection loops:
`calculateDistance(current.lat, current.lng, d.location.lat, d.location.lng)`. -/
noncomputable def distTo (current : Coord) (d : Dest) : ℝ :=
  calculateDistance current.lat current.lng d.location.lat d.location.lng

/-- Embeds the nearest-selection loop of `findOptimalOrder` (src/sw.js
lines 1022-1036 and 1044-1058): the JS loop starts with `nearestDist =
Infinity`, so the first element always becomes the initial best, and a later
element replaces the best only on a strictly smaller distance (first wins on
ties); the chosen element is spliced out, the rest keep their order. The
recursion carries the current best and returns (chosen, remaining). -/
noncomputable def pickNearest (current : Coord) : Dest → List Dest → Dest × List Dest
  | best, [] => (best, [])
  | best, d :: rest =>
    if distTo current d < distTo current best then
      ((pickNearest current d rest).1, best :: (pickNearest current d rest).2)
    else
      ((pickNearest current best rest).1, d :: (pickNearest current best rest).2)

/-- Embeds the main position-by-position loop of `findOptimalOrder`
(src/sw.js lines 1010-1040): walks the input sequence; a locked destination
is emitted at its own position (after erasing its id from the unvisited
pool, mirroring `findIndex`/`splice`); an unlocked position emits the
nearest unvisited destination if any remain. Returns the emitted list, the
remaining unvisited pool and the final cursor. -/
noncomputable def buildLoop : List Dest → List Dest → Coord → List Dest × List Dest × Coord
  | [], unvisited, current => ([], unvisited, current)
  | d :: rest, unvisited, current =>
    if d.locked then
      let r := buildLoop rest (unvisited.eraseP (fun u => u.id == d.id)) d.location
      (d :: r.1, r.2)
    else
      match unvisited with
      | [] => buildLoop rest [] current
      | u0 :: us =>
        let p := pickNearest current u0 us
        let r := buildLoop rest p.2 p.1.location
        (p.1 :: r.1, r.2)

/-- Embeds the trailing `while (unvisited.length > 0)` loop of
`findOptimalOrder` (src/sw.js lines 1043-1061); each iteration consumes
exactly one element, so the loop is driven by fuel equal to the initial
length of the unvisited pool. -/
noncomputable def drainGo : ℕ → List Dest → Coord → List Dest
  | 0, _, _ => []
  | _ + 1, [], _ => []
  | n + 1, u0 :: us, current =>
    let p := pickNearest current u0 us
    p.1 :: drainGo n p.2 p.1.location

/-- Embeds `findOptimalOrder(start, destinations, returnToStart)` from
src/sw.js lines 994-1064 (`returnToStart` is accepted and unused, as in the
source; the `locked` filter result is likewise unused there). -/
noncomputable def findOptimalOrder (start : Coord) (destinations : List Dest)
    (returnToStart : Bool) : List Dest :=
  let unlocked := destinations.filter (fun d => !d.locked)
  if unlocked.length ≤ 1 then destinations
  else
    let r := buildLoop destinations unlocked start
    r.1 ++ drainGo r.2.1.length r.2.1 r.2.2

/-- A JavaScript numeric-slot value as seen by `validateWaypoints`: a finite
number, `NaN`, or a non-numeric value (anything whose `typeof` is not
`'number'`). -/
inductive JVal where
  | num (x : ℝ)
  | nan
  | other

/-- `typeof v === 'number'` (`typeof NaN` is `'number'` in JavaScript). -/
def JVal.isNum : JVal → Bool
  | .num _ => true
  | .nan => true
  | .other => false

/-- JavaScript `v < r` for a numeric slot: comparisons against `NaN` are
false; the non-numeric case is unreachable after the `typeof` check. -/
noncomputable def JVal.ltB : JVal → ℝ → Bool
  | .num x, r => decide (x < r)
  | _, _ => false

/-- JavaScript `v > r` for a numeric slot (false on `NaN`). -/
noncomputable def JVal.gtB : JVal → ℝ → Bool
  | .num x, r => decide (r < x)
  | _, _ => false

/-- JavaScript `isNaN(v)` for values that passed the `typeof` check. -/
def JVal.isNaNB : JVal → Bool
  | .nan => true
  | _ => false

/-- The numeric value of a slot; only applied after validation, where the
slot is always `num`. -/
def JVal.toR : JVal → ℝ
  | .num x => x
  | _ => 0

/-- A routing waypoint as passed to `calculateRoute`. -/
structure Waypoint where
  lat : JVal
  lng : JVal

/-- Result of `validateWaypoints`: `{valid: true}` or `{valid: false, error}`. -/
inductive Validation where
  | valid
  | invalid (msg : String)

/-- Embeds the per-waypoint loop of `validateWaypoints` (src/sw.js lines
1124-1135): `typeof` check, then range check (false on NaN), then `isNaN`
check, in source order, with the source's error messages. -/
noncomputable def validateLoop : List Waypoint → ℕ → Validation
  | [], _ => Validation.valid
  | wp :: rest, i =>
    if !(wp.lat.isNum) || !(wp.lng.isNum) then
      Validation.invalid ("Invalid coordinates for waypoint " ++ toString (i + 1) ++
        ". Please re-enter the address.")
    else if wp.lat.ltB (-90) || wp.lat.gtB 90 || wp.lng.ltB (-180) || wp.lng.gtB 180 then
      Validation.invalid ("Coordinates out of range for waypoint " ++ toString (i + 1) ++
        ". Please re-enter the address.")
    else if wp.lat.isNaNB || wp.lng.isNaNB then
      Validation.invalid ("Invalid coordinates for waypoint " ++ toString (i + 1) ++
        ". Please re-enter the address.")
    else validateLoop rest (i + 1)

/-- Embeds `validateWaypoints(waypoints)` from src/sw.js lines 1119-1138. -/
noncomputable def validateWaypoints (waypoints : List Waypoint) : Validation :=
  if waypoints.length < 2 then
    Validation.invalid "At least two locations are required for routing."
  else validateLoop waypoints 0

/-- A GeoJSON-style geometry as carried in route results. -/
structure Geometry where
  type : String
  coordinates : List (ℝ × ℝ)

/-- The payload extracted from a successful provider response:
`data.routes[0]`'s duration (s), distance (m) and geometry. -/
structure RouteData where
  duration : ℝ
  distance : ℝ
  geometry : Geometry

/-- The value `calculateRoute` resolves with: route data, plus the
`isFallback` tag (absent, i.e. false, on real provider results). -/
structure RouteResult where
  duration : ℝ
  distance : ℝ
  geometry : Geometry
  isFallback : Bool

/-- An OSRM response body: a `code` string and a `routes` array. -/
structure OsrmResponse where
  code : String
  routes : List RouteData

/-- Outcome of one `fetch` of a routing request, as distinguished by
`tryRouteServer`: a parsed body, an HTTP error status, an `AbortError`
(timeout), a `TypeError` (network error), or another exception. -/
inductive FetchOutcome where
  | ok (data : OsrmResponse)
  | httpError (status : ℕ)
  | abortError
  | typeError
  | otherError (msg : String)

/-- The classification `tryRouteServer` returns. -/
inductive TryResult where
  | success (data : RouteData)
  | failure (retryable : Bool) (error : String)

/-- Embeds the classification logic of `tryRouteServer(serverUrl, coords)`
(src/sw.js lines 1141-1260) as a function of the fetch outcome; the URL
construction and the request itself live in the network oracle. -/
def tryRouteServer (outcome : FetchOutcome) : TryResult :=
  match outcome with
  | .httpError status =>
    if status == 429 then .failure true "Rate limited"
    else if 500 ≤ status then .failure true "Server error"
    else if status == 400 then .failure false "Invalid request"
    else .failure true ("HTTP " ++ toString status)
  | .ok data =>
    if data.code == "NoRoute" then
      .failure false "No driving route exists between these locations. They may be on different landmasses or not accessible by road."
    else if data.code == "NoSegment" then
      .failure false "One or more locations are too far from a road. Please choose locations closer to roads."
    else if data.code == "InvalidInput" || data.code == "InvalidQuery" then
      .failure false "Invalid location coordinates. Please re-enter the addresses."
    else if data.code == "TooBig" then
      .failure false "Route is too long. Please reduce the number of destinations or choose closer locations."
    else
      match data.routes with
      | [] => .failure true ("Unexpected response from routing service: " ++
          (if data.code == "" then "No routes returned" else data.code))
      | r :: _ =>
        if data.code == "Ok" then .success r
        else .failure true ("Unexpected response from routing service: " ++
          (if data.code == "" then "No routes returned" else data.code))
  | .abortError => .failure true "Request timed out"
  | .typeError => .failure true "Network error"
  | .otherError msg => .failure true (if msg == "" then "Unknown error" else msg)

/-- The primary OSRM server URL (first entry of `ROUTING_SERVERS`). -/
def primaryServer : String := "https://router.project-osrm.org"

/-- The secondary OSRM server URL (second entry of `ROUTING_SERVERS`). -/
def secondaryServer : String := "https://routing.openstreetmap.de/routed-car"

/-- Embeds the `ROUTING_SERVERS` constant from src/sw.js lines 1087-1090. -/
def ROUTING_SERVERS : List String := [primaryServer, secondaryServer]

/-- One entry of the `errors` array accumulated by `calculateRoute`:
server URL, 1-based attempt number, and the classified error message. -/
structure ErrEntry where
  server : String
  attempt : ℕ
  error : String

/-- The network oracle and environment observed by one `calculateRoute`
call: the fetch outcome per (server URL, 0-based attempt index), the
`navigator.onLine` flag, and the result of `testNetworkConnectivity()`. -/
structure Env where
  net : String → ℕ → FetchOutcome
  online : Bool
  connectivity : Bool

/-- The options object of `calculateRoute` (`maxRetries = 2`,
`useFallback = true` by default at the call sites). -/
structure RouteOptions where
  maxRetries : ℕ
  useFallback : Bool

/-- Embeds the inner retry loop `for (attempt = 0; attempt <= maxRetries;
attempt++)` of `calculateRoute` (src/sw.js lines 1318-1345) for one server:
driven by the number of attempts left (`maxRetries + 1` initially); each
failed attempt is appended to `errors` with its 1-based attempt number; a
non-retryable failure breaks out of the loop. Returns the route data on
success (or none) together with the `errors` array as left at loop exit. -/
def attemptLoop (net : String → ℕ → FetchOutcome) (server : String) :
    List ErrEntry → ℕ → ℕ → Option RouteData × List ErrEntry
  | errors, _, 0 => (none, errors)
  | errors, attempt, n + 1 =>
    match tryRouteServer (net server attempt) with
    | .success d => (some d, errors)
    | .failure retryable err =>
      if retryable then
        attemptLoop net server (errors ++ [⟨server, attempt + 1, err⟩]) (attempt + 1) n
      else (none, errors ++ [⟨server, attempt + 1, err⟩])

/-- Embeds the outer provider loop `for (serverUrl of ROUTING_SERVERS)` of
`calculateRoute` (src/sw.js line 1317): first success returns immediately,
otherwise the next server is tried with the accumulated `errors`. -/
def serverLoop (net : String → ℕ → FetchOutcome) (maxRetries : ℕ) :
    List String → List ErrEntry → Option RouteData × List ErrEntry
  | [], errors => (none, errors)
  | s :: rest, errors =>
    match attemptLoop net s errors 0 (maxRetries + 1) with
    | (some d, errs) => (some d, errs)
    | (none, errs) => serverLoop net maxRetries rest errs

/-- `chStarts pat l`: `pat` is an initial run of `l` (character lists). -/
def chStarts : List Char → List Char → Bool
  | [], _ => true
  | _ :: _, [] => false
  | p :: ps, c :: cs => p == c && chStarts ps cs

/-- `chHas pat l`: `pat` occurs contiguously somewhere in `l`. -/
def chHas (pat : List Char) : List Char → Bool
  | [] => pat.isEmpty
  | c :: cs => chStarts pat (c :: cs) || chHas pat cs

/-- JavaScript `s.includes(pat)`. -/
def strIncludes (s pat : String) : Bool := chHas pat.toList s.toList

/-- Embeds the `totalDistance` accumulation of `calculateFallbackRoute`
(src/sw.js lines 1267-1276): each consecutive leg contributes its haversine
distance converted to meters. -/
noncomputable def fbDist : List Waypoint → ℝ
  | [] => 0
  | [_] => 0
  | a :: b :: t =>
    calculateDistance a.lat.toR a.lng.toR b.lat.toR b.lng.toR * 1000 + fbDist (b :: t)

/-- Embeds `calculateFallbackRoute(waypoints)` from src/sw.js lines
1263-1290: straight-line distance total, duration at an assumed 50 km/h,
a LineString geometry through all waypoints, tagged `isFallback`. -/
noncomputable def calculateFallbackRoute (waypoints : List Waypoint) : RouteResult :=
  let totalDistance := fbDist waypoints
  { duration := totalDistance / 1000 / 50 * 3600
    distance := totalDistance
    geometry := ⟨"LineString", waypoints.map (fun wp => (wp.lng.toR, wp.lat.toR))⟩
    isFallback := true }

/-- Spec-facing reformulation of the cumulative straight-line distance:
the sum, over consecutive waypoint pairs, of the haversine distance in
meters. Compared against the source-derived `fbDist`. -/
noncomputable def pairwiseStraightLineMeters (wps : List Waypoint) : ℝ :=
  ((wps.zip wps.tail).map
    (fun ab => calculateDistance ab.1.lat.toR ab.1.lng.toR ab.2.lat.toR ab.2.lng.toR * 1000)).sum

/-- Embeds `calculateRoute(waypoints, options)` from src/sw.js lines
1293-1402: validation, `isOnline()` check, the provider/retry loop, and the
step-5 aggregate error analysis. Returns the JS function's outcome (resolved
route result or thrown error message) paired with the final value of the
internal `errors` array (observable as the recorded provider attempts). -/
noncomputable def calculateRouteWithLog (env : Env) (wps : List Waypoint)
    (opts : RouteOptions) : Except String RouteResult × List ErrEntry :=
  match validateWaypoints wps with
  | .invalid msg => (.error msg, [])
  | .valid =>
    if env.online = false then
      (if opts.useFallback then .ok (calculateFallbackRoute wps)
       else .error "You appear to be offline. Please check your internet connection and try again.", [])
    else
      match serverLoop env.net opts.maxRetries ROUTING_SERVERS [] with
      | (some d, errs) => (.ok ⟨d.duration, d.distance, d.geometry, false⟩, errs)
      | (none, errs) =>
        if errs.all (fun e => e.error == "Network error" || e.error == "Request timed out") then
          (if env.connectivity = false then
            (if opts.useFallback then .ok (calculateFallbackRoute wps)
             else .error "Unable to connect to routing services. Please check your internet connection and try again.")
           else
            (if opts.useFallback then .ok (calculateFallbackRoute wps)
             else .error "Routing services are temporarily unavailable. Please try again in a few minutes."), errs)
        else
          match errs.find? (fun e => strIncludes e.error "No driving route" ||
              strIncludes e.error "too far from a road" ||
              strIncludes e.error "Invalid location" ||
              strIncludes e.error "too long") with
          | some e => (.error e.error, errs)
          | none =>
            if errs.any (fun e => e.error == "Rate limited") then
              (.error "Route calculation service is busy. Please wait a moment and try again.", errs)
            else
              (if opts.useFallback then .ok (calculateFallbackRoute wps)
               else .error "Unable to calculate route. Please verify your destinations and try again.", errs)

/-- The value `calculateRoute` itself produces (the JS function does not
return the `errors` array). -/
noncomputable def calculateRoute (env : Env) (wps : List Waypoint)
    (opts : RouteOptions) : Except String RouteResult :=
  (calculateRouteWithLog env wps opts).1

/-- The `errors` array entries produced by `n` consecutive timed-out
attempts against `server` starting at 0-based attempt index `attempt`
(each recorded with its 1-based attempt number). -/
def timeoutEntries (server : String) : ℕ → ℕ → List ErrEntry
  | _, 0 => []
  | attempt, n + 1 =>
    ⟨server, attempt + 1, "Request timed out"⟩ :: timeoutEntries server (attempt + 1) n

/-- The condition of claim C4 on one coordinate slot: non-numeric, NaN, or a
number outside `[lo, hi]`. -/
def badCoord (v : JVal) (lo hi : ℝ) : Prop :=
  v = JVal.other ∨ v = JVal.nan ∨ ∃ x, v = JVal.num x ∧ (x < lo ∨ hi < x)

/-- The condition of claim C4 on a waypoint: an invalid latitude or
longitude slot. -/
def badWaypoint (wp : Waypoint) : Prop :=
  badCoord wp.lat (-90) 90 ∨ badCoord wp.lng (-180) 180

/-- The time-saved statistic computed by `displayResults` (src/sw.js line
1413): `Math.max(0, originalRoute.duration - optimizedRoute.duration)`. -/
noncomputable def displayResultsTimeSaved (optimizedRoute originalRoute : RouteResult) : ℝ :=
  max 0 (originalRoute.duration - optimizedRoute.duration)

/-- Embeds the per-server body of `estimateDrivingTime` (src/sw.js lines
435-462): a non-ok response, an exception, a non-`Ok` code, or an empty
routes array all make the loop continue; otherwise duration and distance of
the first route are returned. -/
def etTry : FetchOutcome → Option (ℝ × ℝ)
  | .ok data =>
    if data.code == "Ok" then
      match data.routes with
      | r :: _ => some (r.duration, r.distance)
      | [] => none
    else none
  | _ => none

/-- The `for (serverUrl of ROUTING_SERVERS)` loop of `estimateDrivingTime`:
one attempt per server, first usable answer wins. -/
def etLoop (net : String → FetchOutcome) : List String → Option (ℝ × ℝ)
  | [] => none
  | s :: rest =>
    match etTry (net s) with
    | some v => some v
    | none => etLoop net rest

/-- The object `estimateDrivingTime` resolves with. -/
structure ETResult where
  duration : ℝ
  distance : ℝ
  isEstimate : Bool

/-- Embeds `estimateDrivingTime(fromLat, fromLng, toLat, toLng)` from
src/sw.js lines 431-472: each server tried once; on total failure a
straight-line estimate at 40 km/h, tagged `isEstimate` (a successful
provider answer carries no tag, i.e. false). -/
noncomputable def estimateDrivingTime (net : String → FetchOutcome)
    (fromLat fromLng toLat toLng : ℝ) : ETResult :=
  match etLoop net ROUTING_SERVERS with
  | some v => ⟨v.1, v.2, false⟩
  | none =>
    let straightLineKm := calculateDistance fromLat fromLng toLat toLng
    ⟨straightLineKm / 40 * 3600, straightLineKm * 1000, true⟩

/-- One geocoding candidate as returned by the collaborator (the numeric
values of the JSON `lat`/`lon` strings after `parseFloat`, and the display
name identifying the candidate). -/
structure RawResult where
  lat : ℝ
  lon : ℝ
  display : String

/-- A candidate as returned by `searchLocation`: the raw fields plus the
`straightLineDistance` property the function may attach (absent, i.e.
`none`, when no reference point is in effect). -/
structure SearchResult where
  lat : ℝ
  lon : ℝ
  display : String
  straightLineDistance : Option ℝ

/-- JavaScript truthiness of an optional number (`null` and `0` are falsy;
`NaN`, also falsy in JS, has no counterpart in the real-number model). -/
noncomputable def jsTruthy : Option ℝ → Bool
  | none => false
  | some x => if x = 0 then false else true

/-- The search request `searchLocation` issues: the query and the optional
`viewbox` bias (`bounded=0`, a preference, not a filter). -/
structure GeoRequest where
  query : String
  viewbox : Option (ℝ × ℝ × ℝ × ℝ)

/-- Embeds the request construction of `searchLocation(query, nearLat,
nearLng)` (src/sw.js lines 397-403): the viewbox
`(nearLng-0.5, nearLat-0.5, nearLng+0.5, nearLat+0.5)` is attached only
when `nearLat && nearLng` is truthy. -/
noncomputable def searchLocationRequest (query : String)
    (nearLat nearLng : Option ℝ) : GeoRequest :=
  if jsTruthy nearLat && jsTruthy nearLng then
    ⟨query, some (nearLng.getD 0 - 0.5, nearLat.getD 0 - 0.5,
      nearLng.getD 0 + 0.5, nearLat.getD 0 + 0.5)⟩
  else ⟨query, none⟩

/-- The comparator `(a, b) => a.straightLineDistance - b.straightLineDistance`
of `searchLocation` as a total preorder (the field is always set on the
sorted branch; `getD 0` is a modelling default). -/
def slLe (a b : SearchResult) : Prop :=
  a.straightLineDistance.getD 0 ≤ b.straightLineDistance.getD 0

noncomputable instance : DecidableRel slLe :=
  fun a b => inferInstanceAs (Decidable (_ ≤ _))

instance : IsTotal SearchResult slLe :=
  ⟨fun _ _ => le_total _ _⟩

instance : IsTrans SearchResult slLe :=
  ⟨fun _ _ _ => le_trans⟩

/-- Embeds `searchLocation(query, nearLat, nearLng)` from src/sw.js lines
395-428: the geocoding collaborator is an oracle from the request to a
candidate list (`none` models a failed fetch, which the source catches,
returning `[]`). When `nearLat && nearLng` is truthy and results are
nonempty, each result gets `straightLineDistance` from the reference and
the list is sorted ascending by it (`Array.prototype.sort` with a
consistent comparator is stable, which is what insertion sort computes). -/
noncomputable def searchLocation (geo : GeoRequest → Option (List RawResult))
    (query : String) (nearLat nearLng : Option ℝ) : List SearchResult :=
  match geo (searchLocationRequest query nearLat nearLng) with
  | none => []
  | some raw =>
    let results : List SearchResult := raw.map (fun r => ⟨r.lat, r.lon, r.display, none⟩)
    if jsTruthy nearLat && jsTruthy nearLng && decide (0 < results.length) then
      List.insertionSort slLe (results.map (fun r =>
        (⟨r.lat, r.lon, r.display,
          some (calculateDistance (nearLat.getD 0) (nearLng.getD 0) r.lat r.lon)⟩ :
          SearchResult)))
    else results

/-- A candidate as returned by `searchLocationWithTimes`: the search fields
plus `drivingTime`/`drivingDistance` (JS `null` is `none`). -/
structure TimedResult where
  lat : ℝ
  lon : ℝ
  display : String
  straightLineDistance : Option ℝ
  drivingTime : Option ℝ
  drivingDistance : Option ℝ

/-- The comparator of `searchLocationWithTimes` (src/sw.js lines 506-513)
as a Boolean `≤`: both times known compares times; a known time sorts
before an unknown one; two unknown times compare by straight-line distance
(`|| 0` in the source is `getD 0`). -/
noncomputable def timedCmpLe (a b : TimedResult) : Bool :=
  match a.drivingTime, b.drivingTime with
  | some x, some y => decide (x ≤ y)
  | some _, none => true
  | none, some _ => false
  | none, none =>
    decide (a.straightLineDistance.getD 0 ≤ b.straightLineDistance.getD 0)

/-- The comparator as a relation, for sorting. -/
noncomputable def timedLe (a b : TimedResult) : Prop := timedCmpLe a b = true

noncomputable instance : DecidableRel timedLe :=
  fun a b => inferInstanceAs (Decidable (_ = true))

instance : IsTotal TimedResult timedLe := by
  constructor
  intro a b
  unfold timedLe timedCmpLe
  rcases ha : a.drivingTime with _ | x <;> rcases hb : b.drivingTime with _ | y <;>
    simp [decide_eq_true_eq] <;> exact le_total _ _

instance : IsTrans TimedResult timedLe := by
  constructor
  intro a b c hab hbc
  unfold timedLe timedCmpLe at *
  rcases ha : a.drivingTime with _ | x <;> rcases hb : b.drivingTime with _ | y <;>
    rcases hc : c.drivingTime with _ | z <;>
    simp only [ha, hb, hc, decide_eq_true_eq] at * <;>
    first
      | trivial
      | exact le_trans hab hbc

/-- Embeds `searchLocationWithTimes(query, nearLat, nearLng)` from src/sw.js
lines 475-516: early return (raw results, no time fields) when
`!nearLat || !nearLng` or no results; otherwise the top 3 candidates each
get a driving-time estimate via `estimateDrivingTime` (which always returns
an object, so `timeInfo ? timeInfo.duration : null` is always the duration)
and the list is re-sorted by the comparator. The per-candidate network
oracle is keyed by the (from, to) coordinates. The inter-request 100 ms
delay has no observable effect in this model. -/
noncomputable def searchLocationWithTimes (geo : GeoRequest → Option (List RawResult))
    (etNet : ℝ → ℝ → ℝ → ℝ → String → FetchOutcome)
    (query : String) (nearLat nearLng : Option ℝ) : List TimedResult :=
  let results := searchLocation geo query nearLat nearLng
  if !(jsTruthy nearLat) || !(jsTruthy nearLng) || results.length == 0 then
    results.map (fun r => ⟨r.lat, r.lon, r.display, r.straightLineDistance, none, none⟩)
  else
    List.insertionSort timedLe ((results.take 3).map (fun r =>
      let timeInfo := estimateDrivingTime
        (etNet (nearLat.getD 0) (nearLng.getD 0) r.lat r.lon)
        (nearLat.getD 0) (nearLng.getD 0) r.lat r.lon
      (⟨r.lat, r.lon, r.display, r.straightLineDistance,
        some timeInfo.duration, some timeInfo.distance⟩ : TimedResult)))

/-- Geocoding oracle for the C5 counterexample: two candidates, the farther
one listed first. -/
def c5geo : GeoRequest → Option (List RawResult) :=
  fun _ => some [⟨2, 20, "far"⟩, ⟨0.2, 10.2, "near"⟩]

/-- Geocoding oracle for the C5 witness. -/
def c5wgeo : GeoRequest → Option (List RawResult) := fun _ => some []

/-- Geocoding oracle for the C6 counterexample: candidate "B" at the
reference point itself, candidate "A" one degree of latitude away. -/
def c6geo : GeoRequest → Option (List RawResult) :=
  fun _ => some [⟨1, 10, "B"⟩, ⟨2, 10, "A"⟩]

/-- Driving-time oracle for the C6 counterexample: every provider answers
for the candidate at latitude 2 (duration 500 s) and fails with a network
error for every other destination. -/
noncomputable def c6net : ℝ → ℝ → ℝ → ℝ → String → FetchOutcome :=
  fun _ _ toLat _ _ =>
    if toLat = 2 then FetchOutcome.ok ⟨"Ok", [⟨500, 1000, ⟨"", []⟩⟩]⟩
    else FetchOutcome.typeError

/-- Geocoding oracle for the C6 witness. -/
def c6wgeo : GeoRequest → Option (List RawResult) := fun _ => none

/-- Driving-time oracle for the C6 witness. -/
def c6wnet : ℝ → ℝ → ℝ → ℝ → String → FetchOutcome :=
  fun _ _ _ _ _ => FetchOutcome.typeError

/-! Concrete inputs used by the witness theorems. -/

/-- Concrete input for the C1 witness: a single locked destination. -/
def c1dests : List Dest := [⟨0, true, ⟨5, 6⟩⟩]

/-- Concrete input for the C7 witness: two unlocked destinations. -/
def c7dests : List Dest := [⟨0, false, ⟨0, 0⟩⟩, ⟨1, false, ⟨0, 0⟩⟩]

/-- Concrete input for the C4 witness: first waypoint has latitude 91. -/
def c4wps : List Waypoint := [⟨JVal.num 91, JVal.num 0⟩, ⟨JVal.num 0, JVal.num 0⟩]

/-- Concrete environment for the C4 witness. -/
def c4env : Env := ⟨fun _ _ => FetchOutcome.abortError, true, true⟩

/-- Concrete environment for the C3 witness: every request is a network
error, connectivity probe fails. -/
def c3env : Env := ⟨fun _ _ => FetchOutcome.typeError, true, false⟩

/-- Concrete waypoints for the C2 and C3 witnesses. -/
def c23wps : List Waypoint := [⟨JVal.num 0, JVal.num 0⟩, ⟨JVal.num 1, JVal.num 1⟩]

/-- Concrete environment for the C2 witness: primary always times out,
secondary succeeds immediately. -/
def c2geom : Geometry := ⟨"LineString", [(0, 0), (1, 1)]⟩

/-- The secondary provider's response for the C2 witness. -/
def c2resp : OsrmResponse := ⟨"Ok", [⟨1234, 56789, c2geom⟩]⟩

/-- Oracle for the C2 witness. -/
def c2env : Env :=
  ⟨fun s _ => if s == primaryServer then FetchOutcome.abortError else FetchOutcome.ok c2resp,
   true, true⟩

/-- Route results for the C9 witness: the optimized route is slower. -/
def c9optimized : RouteResult := ⟨300, 0, ⟨"", []⟩, false⟩

/-- Baseline route for the C9 witness. -/
def c9original : RouteResult := ⟨100, 0, ⟨"", []⟩, false⟩

/-- Oracle for the C10 witness: every fetch is a network error. -/
def c10net : String → FetchOutcome := fun _ => FetchOutcome.typeError

/-! ## Theorems: geospatial math (C8) -/

theorem calculateDistance_self (lat lng : ℝ) :
    calculateDistance lat lng lat lng = 0 := by
  simp [calculateDistance, toRad, atan2, Real.arctan_zero]

theorem calculateDistance_symm (lat1 lon1 lat2 lon2 : ℝ) :
    calculateDistance lat1 lon1 lat2 lon2 = calculateDistance lat2 lon2 lat1 lon1 := by
  have h : ∀ u v : ℝ, Real.sin (toRad (u - v) / 2) * Real.sin (toRad (u - v) / 2)
      = Real.sin (toRad (v - u) / 2) * Real.sin (toRad (v - u) / 2) := by
    intro u v
    have : toRad (u - v) / 2 = -(toRad (v - u) / 2) := by
      simp [toRad]; ring
    rw [this, Real.sin_neg]; ring
  simp only [calculateDistance]
  rw [h lat2 lat1, h lon2 lon1, mul_comm (Real.cos (toRad lat1)) (Real.cos (toRad lat2))]

theorem arctan_nonneg_of_nonneg (t : ℝ) (h : 0 ≤ t) : 0 ≤ Real.arctan t := by
  have := Real.arctan_strictMono.monotone h
  rwa [Real.arctan_zero] at this

theorem atan2_nonneg_of_nonneg (y x : ℝ) (hy : 0 ≤ y) : 0 ≤ atan2 y x := by
  unfold atan2
  split_ifs with h1 h2 h3 h4
  · exact arctan_nonneg_of_nonneg _ (div_nonneg hy (le_of_lt h1))
  · have ha : -(Real.pi / 2) < Real.arctan (y / x) := Real.neg_pi_div_two_lt_arctan _
    have hp : (0:ℝ) < Real.pi := Real.pi_pos
    linarith
  · have hp : (0:ℝ) < Real.pi := Real.pi_pos
    linarith
  · linarith
  · exact le_refl 0

theorem calculateDistance_nonneg (lat1 lon1 lat2 lon2 : ℝ) :
    0 ≤ calculateDistance lat1 lon1 lat2 lon2 := by
  simp only [calculateDistance]
  have h := atan2_nonneg_of_nonneg
    (Real.sqrt (Real.sin (toRad (lat2 - lat1) / 2) * Real.sin (toRad (lat2 - lat1) / 2) +
      Real.cos (toRad lat1) * Real.cos (toRad lat2) *
        (Real.sin (toRad (lon2 - lon1) / 2) * Real.sin (toRad (lon2 - lon1) / 2))))
    (Real.sqrt (1 - (Real.sin (toRad (lat2 - lat1) / 2) * Real.sin (toRad (lat2 - lat1) / 2) +
      Real.cos (toRad lat1) * Real.cos (toRad lat2) *
        (Real.sin (toRad (lon2 - lon1) / 2) * Real.sin (toRad (lon2 - lon1) / 2)))))
    (Real.sqrt_nonneg _)
  linarith

/-- C8: for every valid Coordinate `a`, `distance(a,a) = 0`, and for every pair
of valid Coordinates `a`, `b`, `distance(a,b) = distance(b,a)`: the haversine
distance `calculateDistance` is zero on identical inputs and symmetric. -/
theorem calculateDistance_self_eq_zero_and_symm (a b : Coord)
    (ha : validCoord a) (hb : validCoord b) :
    calculateDistance a.lat a.lng a.lat a.lng = 0 ∧
    calculateDistance a.lat a.lng b.lat b.lng = calculateDistance b.lat b.lng a.lat a.lng :=
  ⟨calculateDistance_self a.lat a.lng, calculateDistance_symm a.lat a.lng b.lat b.lng⟩

/-- Witness for C8 at the concrete valid coordinates (10, 20) and (-30, 40). -/
theorem calculateDistance_self_eq_zero_and_symm_witness :
    calculateDistance (10:ℝ) 20 10 20 = 0 ∧
    calculateDistance (10:ℝ) 20 (-30) 40 = calculateDistance (-30:ℝ) 40 10 20 :=
  calculateDistance_self_eq_zero_and_symm ⟨10, 20⟩ ⟨-30, 40⟩
    (by constructor <;> [norm_num; constructor <;> [norm_num; constructor <;> norm_num]])
    (by constructor <;> [norm_num; constructor <;> [norm_num; constructor <;> norm_num]])

/-! ## Theorems: order optimizer (C1, C7) -/

theorem pickNearest_perm (current : Coord) :
    ∀ (l : List Dest) (best : Dest),
      List.Perm ((pickNearest current best l).1 :: (pickNearest current best l).2)
        (best :: l) := by
  intro l
  induction l with
  | nil => intro best; simp [pickNearest]
  | cons d rest ih =>
    intro best
    simp only [pickNearest]
    split
    · exact (List.Perm.swap best (pickNearest current d rest).1 _).trans
        ((ih d).cons best)
    · exact ((List.Perm.swap d (pickNearest current best rest).1 _).trans
        ((ih best).cons d)).trans (List.Perm.swap best d rest)

theorem pickNearest_length (current : Coord) (best : Dest) (l : List Dest) :
    (pickNearest current best l).2.length = l.length := by
  have h := (pickNearest_perm current l best).length_eq
  simpa using h

theorem pickNearest_mem (current : Coord) (best : Dest) (l : List Dest)
    (u : Dest) (hu : u ∈ (pickNearest current best l).2) : u ∈ best :: l :=
  (pickNearest_perm current l best).subset (List.mem_cons_of_mem _ hu)

theorem buildLoop_perm_unlocked :
    ∀ (dests unvisited : List Dest) (current : Coord),
      (∀ d ∈ dests, d.locked = false) →
      List.Perm ((buildLoop dests unvisited current).1 ++ (buildLoop dests unvisited current).2.1)
        unvisited := by
  intro dests
  induction dests with
  | nil => intro unvisited current _; simp [buildLoop]
  | cons d rest ih =>
    intro unvisited current h
    have hd : d.locked = false := h d (List.mem_cons_self d rest)
    have hrest : ∀ d' ∈ rest, d'.locked = false :=
      fun d' hd' => h d' (List.mem_cons_of_mem d hd')
    simp only [buildLoop, hd, Bool.false_eq_true, if_false]
    match unvisited with
    | [] =>
      simpa using ih [] current hrest
    | u0 :: us =>
      have hperm := ih (pickNearest current u0 us).2 (pickNearest current u0 us).1.location hrest
      exact (List.Perm.cons (pickNearest current u0 us).1 hperm).trans
        (pickNearest_perm current us u0)

theorem drainGo_perm :
    ∀ (n : ℕ) (l : List Dest) (current : Coord), l.length ≤ n →
      List.Perm (drainGo n l current) l := by
  intro n
  induction n with
  | zero =>
    intro l current hl
    have : l = [] := List.eq_nil_of_length_eq_zero (Nat.le_zero.mp hl)
    simp [this, drainGo]
  | succ n ih =>
    intro l current hl
    match l with
    | [] => simp [drainGo]
    | u0 :: us =>
      simp only [drainGo]
      have hlen : (pickNearest current u0 us).2.length ≤ n := by
        rw [pickNearest_length]
        simpa using hl
      exact (List.Perm.cons _ (ih _ _ hlen)).trans (pickNearest_perm current us u0)

/-- C7: for every input with zero locked destinations and at least 2
destinations (hence at least 2 unlocked ones), the output of
`findOptimalOrder` is a permutation of the input destination list: no
destination is added, removed, or duplicated. -/
theorem findOptimalOrder_unlocked_perm (start : Coord) (destinations : List Dest)
    (ret : Bool) (hunlocked : ∀ d ∈ destinations, d.locked = false)
    (hlen : 2 ≤ destinations.length) :
    List.Perm (findOptimalOrder start destinations ret) destinations := by
  have hfilter : destinations.filter (fun d => !d.locked) = destinations :=
    List.filter_eq_self.mpr (fun d hd => by simp [hunlocked d hd])
  have hcond : ¬ (destinations.filter (fun d => !d.locked)).length ≤ 1 := by
    rw [hfilter]; omega
  simp only [findOptimalOrder, hcond, if_false]
  have hdrain : List.Perm
      (drainGo (buildLoop destinations (destinations.filter (fun d => !d.locked)) start).2.1.length
        (buildLoop destinations (destinations.filter (fun d => !d.locked)) start).2.1
        (buildLoop destinations (destinations.filter (fun d => !d.locked)) start).2.2)
      (buildLoop destinations (destinations.filter (fun d => !d.locked)) start).2.1 :=
    drainGo_perm _ _ _ (le_refl _)
  have hbuild := buildLoop_perm_unlocked destinations
    (destinations.filter (fun d => !d.locked)) start hunlocked
  have hlast : List.Perm (destinations.filter (fun d => !d.locked)) destinations := by
    rw [hfilter]
  exact (List.Perm.append_left _ hdrain).trans (hbuild.trans hlast)

theorem eraseP_no_match {α : Type} (p : α → Bool) (l : List α)
    (h : ∀ a ∈ l, p a = false) : l.eraseP p = l := by
  induction l with
  | nil => rfl
  | cons a t ih =>
    rw [List.eraseP_cons, h a (List.mem_cons_self a t)]
    simp only [cond_false]
    rw [ih (fun b hb => h b (List.mem_cons_of_mem a hb))]

theorem buildLoop_locked_aligned :
    ∀ (dests unvisited : List Dest) (current : Coord),
      (∀ d ∈ dests, d.locked = true → ∀ u ∈ unvisited, u.id ≠ d.id) →
      List.countP (fun d => !d.locked) dests ≤ unvisited.length →
      (buildLoop dests unvisited current).1.length = dests.length ∧
      ∀ i (h : i < dests.length), (dests.get ⟨i, h⟩).locked = true →
        (buildLoop dests unvisited current).1[i]? = some (dests.get ⟨i, h⟩) := by
  intro dests
  induction dests with
  | nil =>
    intro unvisited current _ _
    exact ⟨rfl, fun i h => absurd h (Nat.not_lt_zero i)⟩
  | cons d rest ih =>
    intro unvisited current hdisj hcount
    by_cases hd : d.locked = true
    · have herase : unvisited.eraseP (fun u => u.id == d.id) = unvisited := by
        apply eraseP_no_match
        intro u hu
        exact beq_eq_false_iff_ne.mpr (hdisj d (List.mem_cons_self d rest) hd u hu)
      have hcount' : List.countP (fun d => !d.locked) rest ≤ unvisited.length := by
        have : List.countP (fun d => !d.locked) (d :: rest)
            = List.countP (fun d => !d.locked) rest := by
          simp [List.countP_cons, hd]
        omega
      obtain ⟨hlen, hidx⟩ := ih unvisited d.location
        (fun d' hd' hl u hu => hdisj d' (List.mem_cons_of_mem _ hd') hl u hu) hcount'
      simp only [buildLoop, hd, if_true, herase]
      refine ⟨by simp [hlen], ?_⟩
      intro i h hl
      cases i with
      | zero => simp
      | succ n =>
        simp only [List.getElem?_cons_succ]
        exact hidx n (Nat.lt_of_succ_lt_succ h) hl
    · have hd' : d.locked = false := by revert hd; cases d.locked <;> simp
      have hsplit : List.countP (fun d => !d.locked) (d :: rest)
          = List.countP (fun d => !d.locked) rest + 1 := by
        simp [List.countP_cons, hd']
      rw [hsplit] at hcount
      cases unvisited with
      | nil => simp at hcount
      | cons u0 us =>
        have hcount'' : List.countP (fun d => !d.locked) rest
            ≤ (pickNearest current u0 us).2.length := by
          rw [pickNearest_length]
          simp only [List.length_cons] at hcount
          omega
        obtain ⟨hlen, hidx⟩ := ih (pickNearest current u0 us).2
          (pickNearest current u0 us).1.location
          (fun d' hmem hl u hu => hdisj d' (List.mem_cons_of_mem _ hmem) hl u
            (pickNearest_mem current u0 us u hu)) hcount''
        simp only [buildLoop, hd', Bool.false_eq_true, if_false]
        refine ⟨by simp [hlen], ?_⟩
        intro i h hl
        cases i with
        | zero => exact absurd hl (by simp [hd'])
        | succ n =>
          simp only [List.getElem?_cons_succ]
          exact hidx n (Nat.lt_of_succ_lt_succ h) hl

/-- C1: for every input sequence of destinations, any mix of locked and
unlocked, with session-unique ids (the Stop invariant of spec §3), every
locked destination appears at the same index in the output of
`findOptimalOrder` as it occupied in the input sequence. -/
theorem findOptimalOrder_locked_position (start : Coord) (destinations : List Dest)
    (ret : Bool) (hids : (destinations.map Dest.id).Nodup) :
    ∀ i (h : i < destinations.length), (destinations.get ⟨i, h⟩).locked = true →
      (findOptimalOrder start destinations ret)[i]? = some (destinations.get ⟨i, h⟩) := by
  intro i h hl
  by_cases hcond : (destinations.filter (fun d => !d.locked)).length ≤ 1
  · simp only [findOptimalOrder, hcond, if_true]
    exact List.getElem?_eq_getElem h
  · simp only [findOptimalOrder, hcond, if_false]
    have hdisj : ∀ d ∈ destinations, d.locked = true →
        ∀ u ∈ destinations.filter (fun d => !d.locked), u.id ≠ d.id := by
      intro d hdmem hdl u humem hequ
      have hu := List.mem_filter.mp humem
      have heq : u = d := List.inj_on_of_nodup_map hids hu.1 hdmem hequ
      rw [heq, hdl] at hu
      simp at hu
    obtain ⟨hlen, hidx⟩ := buildLoop_locked_aligned destinations
      (destinations.filter (fun d => !d.locked)) start hdisj
      (le_of_eq (List.countP_eq_length_filter _ _))
    have hi : i < (buildLoop destinations
        (destinations.filter (fun d => !d.locked)) start).1.length := by
      rw [hlen]; exact h
    rw [List.getElem?_append_left hi]
    exact hidx i h hl

/-- Witness for C1: a single locked destination stays at index 0. -/
theorem findOptimalOrder_locked_position_witness :
    (c1dests.map Dest.id).Nodup ∧
    (findOptimalOrder ⟨0, 0⟩ c1dests false)[0]? = some (c1dests.get ⟨0, by norm_num [c1dests]⟩) :=
  ⟨by simp [c1dests],
   findOptimalOrder_locked_position ⟨0, 0⟩ c1dests false (by simp [c1dests]) 0
     (by norm_num [c1dests]) rfl⟩

/-- Witness for C7: two unlocked destinations at the origin; the optimizer
output is a permutation of the input. -/
theorem findOptimalOrder_unlocked_perm_witness :
    (∀ d ∈ c7dests, d.locked = false) ∧ 2 ≤ c7dests.length ∧
    List.Perm (findOptimalOrder ⟨0, 0⟩ c7dests false) c7dests := by
  have hall : ∀ d ∈ c7dests, d.locked = false := by
    intro d hd
    simp only [c7dests, List.mem_cons, List.not_mem_nil, or_false] at hd
    rcases hd with rfl | rfl <;> rfl
  refine ⟨hall, by simp [c7dests], ?_⟩
  exact findOptimalOrder_unlocked_perm ⟨0, 0⟩ c7dests false hall (by simp [c7dests])

/-! ## Theorems: route calculator (C4, C2, C3) -/

theorem validateLoop_invalid_of_bad :
    ∀ (l : List Waypoint) (i : ℕ), (∃ wp ∈ l, badWaypoint wp) →
      ∃ msg, validateLoop l i = Validation.invalid msg := by
  intro l
  induction l with
  | nil =>
    intro i h
    rcases h with ⟨wp, hmem, _⟩
    simp at hmem
  | cons wp rest ih =>
    intro i h
    simp only [validateLoop]
    split_ifs with h1 h2 h3
    · exact ⟨_, rfl⟩
    · exact ⟨_, rfl⟩
    · exact ⟨_, rfl⟩
    · rcases h with ⟨wp', hmem, hbad⟩
      rcases List.mem_cons.mp hmem with rfl | hmem'
      · exfalso
        rcases hbad with hlat | hlng
        · rcases hlat with hlat | hlat | ⟨x, hlat, hx⟩
          · exact h1 (by simp [hlat, JVal.isNum])
          · exact h3 (by simp [hlat, JVal.isNaNB])
          · apply h2
            rcases hx with hx | hx <;>
              simp [hlat, JVal.ltB, JVal.gtB, hx]
        · rcases hlng with hlng | hlng | ⟨x, hlng, hx⟩
          · exact h1 (by simp [hlng, JVal.isNum])
          · exact h3 (by simp [hlng, JVal.isNaNB])
          · apply h2
            rcases hx with hx | hx <;>
              simp [hlng, JVal.ltB, JVal.gtB, hx]
      · exact ih (i + 1) ⟨wp', hmem', hbad⟩

theorem validateWaypoints_invalid (wps : List Waypoint)
    (h : wps.length < 2 ∨ ∃ wp ∈ wps, badWaypoint wp) :
    ∃ msg, validateWaypoints wps = Validation.invalid msg := by
  unfold validateWaypoints
  split_ifs with hlen
  · exact ⟨_, rfl⟩
  · rcases h with h | h
    · exact absurd h hlen
    · exact validateLoop_invalid_of_bad wps 0 h

/-- C4: for every waypoint list with fewer than 2 entries, or containing a
waypoint with a non-numeric, NaN, or out-of-range latitude/longitude,
`calculateRoute` fails with the validation error immediately: the error is
the validator's message, the recorded attempt log is empty (no network
request, no retry), and the outcome is the same for every network
environment and every `useFallback`/`maxRetries` option. -/
theorem calculateRoute_invalid_fails_fast (env : Env) (wps : List Waypoint)
    (opts : RouteOptions)
    (h : wps.length < 2 ∨ ∃ wp ∈ wps, badWaypoint wp) :
    ∃ msg, validateWaypoints wps = Validation.invalid msg ∧
      calculateRouteWithLog env wps opts = (Except.error msg, []) := by
  obtain ⟨msg, hmsg⟩ := validateWaypoints_invalid wps h
  refine ⟨msg, hmsg, ?_⟩
  simp [calculateRouteWithLog, hmsg]

/-- Witness for C4: latitude 91 fails validation with an empty attempt log. -/
theorem calculateRoute_invalid_fails_fast_witness :
    (c4wps.length < 2 ∨ ∃ wp ∈ c4wps, badWaypoint wp) ∧
    ∃ msg, validateWaypoints c4wps = Validation.invalid msg ∧
      calculateRouteWithLog c4env c4wps ⟨2, true⟩ = (Except.error msg, []) := by
  have hbad : ∃ wp ∈ c4wps, badWaypoint wp :=
    ⟨⟨JVal.num 91, JVal.num 0⟩, List.mem_cons_self _ _,
     Or.inl (Or.inr (Or.inr ⟨91, rfl, Or.inr (by norm_num)⟩))⟩
  exact ⟨Or.inr hbad,
    calculateRoute_invalid_fails_fast c4env c4wps ⟨2, true⟩ (Or.inr hbad)⟩

theorem attemptLoop_all_abort (net : String → ℕ → FetchOutcome) (s : String) :
    ∀ (n attempt : ℕ) (errors : List ErrEntry),
      (∀ a, a < attempt + n → net s a = FetchOutcome.abortError) →
      attemptLoop net s errors attempt n = (none, errors ++ timeoutEntries s attempt n) := by
  intro n
  induction n with
  | zero =>
    intro attempt errors _
    simp [attemptLoop, timeoutEntries]
  | succ n ih =>
    intro attempt errors h
    have h0 : net s attempt = FetchOutcome.abortError := h attempt (by omega)
    simp only [attemptLoop, h0, tryRouteServer, if_true]
    rw [ih (attempt + 1) _ (fun a ha => h a (by omega))]
    simp [timeoutEntries]

theorem timeoutEntries_filter (s : String) :
    ∀ (n attempt : ℕ),
      ((timeoutEntries s attempt n).filter (fun e => e.server == s)).length = n := by
  intro n
  induction n with
  | zero => intro attempt; simp [timeoutEntries]
  | succ n ih => intro attempt; simp [timeoutEntries, List.filter_cons, ih]

/-- C2: if the primary provider times out on every attempt (a retryable
outcome) and the secondary provider succeeds on its first attempt,
`calculateRoute` resolves with the secondary provider's duration, distance
and geometry, not tagged as fallback, and the recorded attempt log holds
exactly `maxRetries + 1` entries against the primary provider (3 with the
default `maxRetries = 2`). -/
theorem calculateRoute_failover (env : Env) (wps : List Waypoint)
    (opts : RouteOptions) (resp : OsrmResponse) (r : RouteData) (rest : List RouteData)
    (hval : validateWaypoints wps = Validation.valid)
    (honline : env.online = true)
    (hprimary : ∀ a, a ≤ opts.maxRetries → env.net primaryServer a = FetchOutcome.abortError)
    (hsecondary : env.net secondaryServer 0 = FetchOutcome.ok resp)
    (hcode : resp.code = "Ok")
    (hroutes : resp.routes = r :: rest) :
    calculateRouteWithLog env wps opts =
      (Except.ok ⟨r.duration, r.distance, r.geometry, false⟩,
        timeoutEntries primaryServer 0 (opts.maxRetries + 1)) ∧
    ((timeoutEntries primaryServer 0 (opts.maxRetries + 1)).filter
        (fun e => e.server == primaryServer)).length = opts.maxRetries + 1 := by
  constructor
  · have h1 : attemptLoop env.net primaryServer [] 0 (opts.maxRetries + 1)
        = (none, [] ++ timeoutEntries primaryServer 0 (opts.maxRetries + 1)) :=
      attemptLoop_all_abort env.net primaryServer (opts.maxRetries + 1) 0 []
        (fun a ha => hprimary a (by omega))
    have h2 : attemptLoop env.net secondaryServer
        (timeoutEntries primaryServer 0 (opts.maxRetries + 1)) 0 (opts.maxRetries + 1)
        = (some r, timeoutEntries primaryServer 0 (opts.maxRetries + 1)) := by
      simp only [attemptLoop, hsecondary, tryRouteServer, hcode, hroutes]
      simp
    rw [List.nil_append] at h1
    have h3 : serverLoop env.net opts.maxRetries ROUTING_SERVERS []
        = (some r, timeoutEntries primaryServer 0 (opts.maxRetries + 1)) := by
      simp [ROUTING_SERVERS, serverLoop, h1, h2]
    simp [calculateRouteWithLog, hval, honline, h3]
  · exact timeoutEntries_filter primaryServer (opts.maxRetries + 1) 0

theorem attemptLoop_all_network (net : String → ℕ → FetchOutcome) (s : String) :
    ∀ (n attempt : ℕ) (errors : List ErrEntry),
      (∀ a, a < attempt + n →
        net s a = FetchOutcome.abortError ∨ net s a = FetchOutcome.typeError) →
      ∃ extra, attemptLoop net s errors attempt n = (none, errors ++ extra) ∧
        ∀ e ∈ extra, e.error = "Request timed out" ∨ e.error = "Network error" := by
  intro n
  induction n with
  | zero =>
    intro attempt errors _
    exact ⟨[], by simp [attemptLoop], by simp⟩
  | succ n ih =>
    intro attempt errors h
    rcases h attempt (by omega) with h0 | h0
    · obtain ⟨extra, heq, hall⟩ := ih (attempt + 1)
        (errors ++ [⟨s, attempt + 1, "Request timed out"⟩]) (fun a ha => h a (by omega))
      refine ⟨⟨s, attempt + 1, "Request timed out"⟩ :: extra, ?_, ?_⟩
      · simp only [attemptLoop, h0, tryRouteServer, if_true]
        rw [heq]
        simp
      · intro e he
        rcases List.mem_cons.mp he with rfl | he'
        · exact Or.inl rfl
        · exact hall e he'
    · obtain ⟨extra, heq, hall⟩ := ih (attempt + 1)
        (errors ++ [⟨s, attempt + 1, "Network error"⟩]) (fun a ha => h a (by omega))
      refine ⟨⟨s, attempt + 1, "Network error"⟩ :: extra, ?_, ?_⟩
      · simp only [attemptLoop, h0, tryRouteServer, if_true]
        rw [heq]
        simp
      · intro e he
        rcases List.mem_cons.mp he with rfl | he'
        · exact Or.inr rfl
        · exact hall e he'

theorem serverLoop_all_network (net : String → ℕ → FetchOutcome) (mR : ℕ) :
    ∀ (servers : List String) (errors : List ErrEntry),
      (∀ s ∈ servers, ∀ a, a ≤ mR →
        net s a = FetchOutcome.abortError ∨ net s a = FetchOutcome.typeError) →
      ∃ extra, serverLoop net mR servers errors = (none, errors ++ extra) ∧
        ∀ e ∈ extra, e.error = "Request timed out" ∨ e.error = "Network error" := by
  intro servers
  induction servers with
  | nil =>
    intro errors _
    exact ⟨[], by simp [serverLoop], by simp⟩
  | cons s rest ih =>
    intro errors h
    obtain ⟨extra1, heq1, hall1⟩ := attemptLoop_all_network net s (mR + 1) 0 errors
      (fun a ha => h s (List.mem_cons_self s rest) a (by omega))
    obtain ⟨extra2, heq2, hall2⟩ := ih (errors ++ extra1)
      (fun s' hs' a ha => h s' (List.mem_cons_of_mem s hs') a ha)
    refine ⟨extra1 ++ extra2, ?_, ?_⟩
    · simp only [serverLoop, heq1, heq2]
      simp [List.append_assoc]
    · intro e he
      rcases List.mem_append.mp he with he | he
      · exact hall1 e he
      · exact hall2 e he

theorem fbDist_eq_pairwise (wps : List Waypoint) :
    fbDist wps = pairwiseStraightLineMeters wps := by
  induction wps with
  | nil => simp [fbDist, pairwiseStraightLineMeters]
  | cons a t ih =>
    cases t with
    | nil => simp [fbDist, pairwiseStraightLineMeters]
    | cons b t2 =>
      simp only [fbDist]
      rw [ih]
      simp [pairwiseStraightLineMeters, List.zip_cons_cons]

/-- C3: when every provider attempt yields a network/timeout-class error,
the connectivity re-probe fails, and fallback is enabled, `calculateRoute`
resolves with the fallback estimate: tagged `isFallback`, its distance is
the sum of the straight-line distances over consecutive waypoints in
meters, its duration is `(total straight-line km / 50) * 3600` seconds, and
its geometry is a straight LineString through all waypoints. -/
theorem calculateRoute_network_errors_fallback (env : Env) (wps : List Waypoint)
    (opts : RouteOptions)
    (hval : validateWaypoints wps = Validation.valid)
    (honline : env.online = true)
    (hnet : ∀ s ∈ ROUTING_SERVERS, ∀ a, a ≤ opts.maxRetries →
      env.net s a = FetchOutcome.abortError ∨ env.net s a = FetchOutcome.typeError)
    (hconn : env.connectivity = false)
    (hfb : opts.useFallback = true) :
    calculateRoute env wps opts = Except.ok (calculateFallbackRoute wps) ∧
    (calculateFallbackRoute wps).isFallback = true ∧
    (calculateFallbackRoute wps).distance = pairwiseStraightLineMeters wps ∧
    (calculateFallbackRoute wps).duration
      = pairwiseStraightLineMeters wps / 1000 / 50 * 3600 ∧
    (calculateFallbackRoute wps).geometry
      = ⟨"LineString", wps.map (fun wp => (wp.lng.toR, wp.lat.toR))⟩ := by
  have hpd : fbDist wps = pairwiseStraightLineMeters wps := fbDist_eq_pairwise wps
  refine ⟨?_, rfl, by simp [calculateFallbackRoute, hpd],
    by simp [calculateFallbackRoute, hpd], rfl⟩
  obtain ⟨extra, heq, hall⟩ :=
    serverLoop_all_network env.net opts.maxRetries ROUTING_SERVERS [] hnet
  have hallb : extra.all
      (fun e => e.error == "Network error" || e.error == "Request timed out") = true := by
    rw [List.all_eq_true]
    intro e he
    rcases hall e he with h | h <;> simp [h]
  simp only [calculateRoute, calculateRouteWithLog, hval, honline, heq, List.nil_append,
    hallb, hconn, hfb]
  simp

theorem c23wps_valid : validateWaypoints c23wps = Validation.valid := by
  simp only [c23wps, validateWaypoints, validateLoop, JVal.isNum, JVal.ltB, JVal.gtB,
    JVal.isNaNB]
  norm_num

/-- Witness for C3: both servers return network errors on every attempt,
the re-probe fails, fallback enabled: the fallback estimate is returned. -/
theorem calculateRoute_network_errors_fallback_witness :
    validateWaypoints c23wps = Validation.valid ∧
    calculateRoute c3env c23wps ⟨2, true⟩ = Except.ok (calculateFallbackRoute c23wps) ∧
    (calculateFallbackRoute c23wps).isFallback = true :=
  ⟨c23wps_valid,
   (calculateRoute_network_errors_fallback c3env c23wps ⟨2, true⟩ c23wps_valid rfl
     (fun s _ a _ => Or.inr rfl) rfl rfl).1,
   (calculateRoute_network_errors_fallback c3env c23wps ⟨2, true⟩ c23wps_valid rfl
     (fun s _ a _ => Or.inr rfl) rfl rfl).2.1⟩

/-- Witness for C2: three timeouts on the primary, first-attempt success on
the secondary; the secondary's data is returned untagged and the log holds
exactly 3 primary entries. -/
theorem calculateRoute_failover_witness :
    validateWaypoints c23wps = Validation.valid ∧
    calculateRouteWithLog c2env c23wps ⟨2, true⟩ =
      (Except.ok ⟨1234, 56789, c2geom, false⟩, timeoutEntries primaryServer 0 3) ∧
    ((timeoutEntries primaryServer 0 3).filter
        (fun e => e.server == primaryServer)).length = 3 := by
  have h := calculateRoute_failover c2env c23wps ⟨2, true⟩ c2resp ⟨1234, 56789, c2geom⟩ []
    c23wps_valid rfl
    (fun a _ => by simp [c2env])
    (by simp [c2env, primaryServer, secondaryServer])
    rfl rfl
  exact ⟨c23wps_valid, h.1, h.2⟩

/-! ## Theorems: displayed time saved (C9) -/

/-- C9: the reported time saved equals
`max(0, baselineDuration - optimizedDuration)`: it is never negative, it is
zero whenever the optimized route is no faster than the baseline, and it is
the exact difference whenever the baseline is slower. -/
theorem displayResults_timeSaved_max (optimizedRoute originalRoute : RouteResult) :
    displayResultsTimeSaved optimizedRoute originalRoute
      = max 0 (originalRoute.duration - optimizedRoute.duration) ∧
    0 ≤ displayResultsTimeSaved optimizedRoute originalRoute ∧
    (originalRoute.duration ≤ optimizedRoute.duration →
      displayResultsTimeSaved optimizedRoute originalRoute = 0) ∧
    (optimizedRoute.duration ≤ originalRoute.duration →
      displayResultsTimeSaved optimizedRoute originalRoute
        = originalRoute.duration - optimizedRoute.duration) := by
  refine ⟨rfl, le_max_left _ _, ?_, ?_⟩
  · intro h
    exact max_eq_left (by simp [sub_nonpos, h])
  · intro h
    exact max_eq_right (by simp [sub_nonneg, h])

/-- Witness for C9: with a slower optimized route the saving is 0, not
negative. -/
theorem displayResults_timeSaved_max_witness :
    0 ≤ displayResultsTimeSaved c9optimized c9original ∧
    displayResultsTimeSaved c9optimized c9original = 0 :=
  ⟨(displayResults_timeSaved_max c9optimized c9original).2.1,
   (displayResults_timeSaved_max c9optimized c9original).2.2.1
     (by norm_num [c9optimized, c9original])⟩

/-! ## Theorems: two-point estimator (C10) -/

/-- C10: `estimateDrivingTime` is total (it always resolves with a value,
never null); when every provider attempt fails it returns the straight-line
estimate tagged `isEstimate`, with duration `(straight-line km / 40) * 3600`
seconds and distance `straight-line km * 1000` meters — a 40 km/h assumed
speed, unlike the 50 km/h used by the route-level `calculateFallbackRoute`,
whose two-point duration is `(straight-line km / 50) * 3600`. -/
theorem estimateDrivingTime_total_fallback (net : String → FetchOutcome)
    (fromLat fromLng toLat toLng : ℝ)
    (hfail : ∀ s ∈ ROUTING_SERVERS, etTry (net s) = none) :
    estimateDrivingTime net fromLat fromLng toLat toLng =
      ⟨calculateDistance fromLat fromLng toLat toLng / 40 * 3600,
       calculateDistance fromLat fromLng toLat toLng * 1000, true⟩ ∧
    (calculateFallbackRoute
        [⟨JVal.num fromLat, JVal.num fromLng⟩, ⟨JVal.num toLat, JVal.num toLng⟩]).duration
      = calculateDistance fromLat fromLng toLat toLng / 50 * 3600 := by
  constructor
  · have h1 : etTry (net primaryServer) = none := hfail _ (by simp [ROUTING_SERVERS])
    have h2 : etTry (net secondaryServer) = none := hfail _ (by simp [ROUTING_SERVERS])
    simp [estimateDrivingTime, etLoop, ROUTING_SERVERS, h1, h2]
  · simp only [calculateFallbackRoute, fbDist, JVal.toR]
    field_simp

/-- Witness for C10 at (0,0) → (3,4). -/
theorem estimateDrivingTime_total_fallback_witness :
    (∀ s ∈ ROUTING_SERVERS, etTry (c10net s) = none) ∧
    estimateDrivingTime c10net 0 0 3 4 =
      ⟨calculateDistance 0 0 3 4 / 40 * 3600, calculateDistance 0 0 3 4 * 1000, true⟩ :=
  ⟨fun s _ => rfl,
   (estimateDrivingTime_total_fallback c10net 0 0 3 4 (fun s _ => rfl)).1⟩

/-! ## Theorems: location resolver (C5, C6) -/

/-- Counterexample to C5 as stated: (0°, 10°) is a valid reference
Coordinate (a point on the equator), yet `searchLocation` — because of the
JavaScript truthiness test `nearLat && nearLng` with `nearLat = 0` — issues
the request with no viewbox bias and returns the collaborator's candidates
in their original order with no straight-line distance computed at all. -/
theorem searchLocation_zero_ref_counterexample :
    validCoord ⟨0, 10⟩ ∧
    (searchLocationRequest "a" (some 0) (some 10)).viewbox = none ∧
    searchLocation c5geo "a" (some 0) (some 10)
      = [⟨2, 20, "far", none⟩, ⟨0.2, 10.2, "near", none⟩] := by
  refine ⟨⟨by norm_num, by norm_num, by norm_num, by norm_num⟩, ?_, ?_⟩
  · simp [searchLocationRequest, jsTruthy]
  · simp [searchLocation, searchLocationRequest, jsTruthy, c5geo]

/-- C5 (amended: the reference latitude and longitude must also be nonzero,
since `0` is falsy in JavaScript): for every query and every valid
reference Coordinate with nonzero latitude and longitude, `searchLocation`
biases the search with a ±0.5° viewbox around the reference and returns the
candidate list sorted ascending by the straight-line distance from the
reference attached to each candidate. -/
theorem searchLocation_near_nonzero_biased_sorted
    (geo : GeoRequest → Option (List RawResult)) (query : String) (lat lng : ℝ)
    (hvalid : validCoord ⟨lat, lng⟩) (hlat : lat ≠ 0) (hlng : lng ≠ 0) :
    (searchLocationRequest query (some lat) (some lng)).viewbox
      = some (lng - 0.5, lat - 0.5, lng + 0.5, lat + 0.5) ∧
    List.Sorted slLe (searchLocation geo query (some lat) (some lng)) ∧
    ∀ r ∈ searchLocation geo query (some lat) (some lng),
      r.straightLineDistance = some (calculateDistance lat lng r.lat r.lon) := by
  have htr : jsTruthy (some lat) = true := by simp [jsTruthy, hlat]
  have htg : jsTruthy (some lng) = true := by simp [jsTruthy, hlng]
  refine ⟨by simp [searchLocationRequest, htr, htg], ?_, ?_⟩
  · cases hgeo : geo (searchLocationRequest query (some lat) (some lng)) with
    | none => simp [searchLocation, hgeo]
    | some raw =>
      cases raw with
      | nil => simp [searchLocation, hgeo]
      | cons r0 rs =>
        simp only [searchLocation, hgeo, htr, htg]
        rw [if_pos (by simp)]
        exact List.sorted_insertionSort slLe _
  · intro r hr
    cases hgeo : geo (searchLocationRequest query (some lat) (some lng)) with
    | none => simp [searchLocation, hgeo] at hr
    | some raw =>
      cases raw with
      | nil => simp [searchLocation, hgeo] at hr
      | cons r0 rs =>
        simp only [searchLocation, hgeo, htr, htg] at hr
        rw [if_pos (by simp)] at hr
        rw [List.mem_insertionSort] at hr
        obtain ⟨r1, hmem, rfl⟩ := List.mem_map.mp hr
        simp

/-- Witness for the amended C5 at the valid nonzero reference (1°, 10°). -/
theorem searchLocation_near_nonzero_biased_sorted_witness :
    validCoord ⟨1, 10⟩ ∧ (1:ℝ) ≠ 0 ∧ (10:ℝ) ≠ 0 ∧
    (searchLocationRequest "a" (some 1) (some 10)).viewbox
      = some (10 - 0.5, 1 - 0.5, 10 + 0.5, 1 + 0.5) ∧
    List.Sorted slLe (searchLocation c5wgeo "a" (some 1) (some 10)) := by
  have hv : validCoord ⟨1, 10⟩ := ⟨by norm_num, by norm_num, by norm_num, by norm_num⟩
  have h := searchLocation_near_nonzero_biased_sorted c5wgeo "a" 1 10 hv
    (by norm_num) (by norm_num)
  exact ⟨hv, by norm_num, by norm_num, h.1, h.2.1⟩

/-- Counterexample to C6 as stated: `estimateDrivingTime` is total, so a
candidate whose provider lookups all failed still gets a numeric
`drivingTime` (the straight-line fallback) and is NOT demoted after the
candidates with a known driving time. Here candidate "B" sits at the
reference point, all providers fail for it (its estimate is tagged
`isEstimate`), while "A" has a real driving time of 500 s; the returned
ranking is ["B", "A"]: the failed candidate is placed before, not after,
the timed one. -/
theorem searchLocationWithTimes_failed_ranked_first_counterexample :
    (estimateDrivingTime (c6net 1 10 1 10) 1 10 1 10).isEstimate = true ∧
    (estimateDrivingTime (c6net 1 10 2 10) 1 10 2 10).isEstimate = false ∧
    (searchLocationWithTimes c6geo c6net "q" (some 1) (some 10)).map
      (fun r => r.display) = ["B", "A"] := by
  have hd0 : calculateDistance 1 10 1 10 = 0 := calculateDistance_self 1 10
  have hdn : (0:ℝ) ≤ calculateDistance 1 10 2 10 := calculateDistance_nonneg 1 10 2 10
  have h12 : ¬ (1:ℝ) = 2 := by norm_num
  have hBfail : etLoop (c6net 1 10 1 10) ROUTING_SERVERS = none := by
    simp [c6net, etLoop, etTry, ROUTING_SERVERS, h12]
  have hAok : etLoop (c6net 1 10 2 10) ROUTING_SERVERS = some (500, 1000) := by
    simp [c6net, etLoop, etTry, ROUTING_SERVERS]
  have hB : estimateDrivingTime (c6net 1 10 1 10) 1 10 1 10
      = ⟨calculateDistance 1 10 1 10 / 40 * 3600,
         calculateDistance 1 10 1 10 * 1000, true⟩ := by
    simp [estimateDrivingTime, hBfail]
  have hA : estimateDrivingTime (c6net 1 10 2 10) 1 10 2 10 = ⟨500, 1000, false⟩ := by
    simp [estimateDrivingTime, hAok]
  refine ⟨by rw [hB], by rw [hA], ?_⟩
  have hsl : slLe ⟨1, 10, "B", some (calculateDistance 1 10 1 10)⟩
      ⟨2, 10, "A", some (calculateDistance 1 10 2 10)⟩ := by
    simp [slLe, hd0, hdn]
  have hsearch : searchLocation c6geo "q" (some 1) (some 10)
      = [⟨1, 10, "B", some (calculateDistance 1 10 1 10)⟩,
         ⟨2, 10, "A", some (calculateDistance 1 10 2 10)⟩] := by
    simp [searchLocation, c6geo, jsTruthy, hsl]
  have hcmp : timedLe
      ⟨1, 10, "B", some (calculateDistance 1 10 1 10),
        some (calculateDistance 1 10 1 10 / 40 * 3600),
        some (calculateDistance 1 10 1 10 * 1000)⟩
      ⟨2, 10, "A", some (calculateDistance 1 10 2 10), some 500, some 1000⟩ := by
    simp [timedLe, timedCmpLe, hd0]
  simp [searchLocationWithTimes, hsearch, jsTruthy, hB, hA, hcmp]

/-- C6 (amended: `estimateDrivingTime` is total, so no candidate ever lacks
a driving time and the comparator's null-demotion branches are
unreachable): a failed driving-time lookup never fails the whole call —
every returned candidate carries `drivingTime = some(estimate.duration)`,
where a candidate whose provider lookups failed gets the straight-line
fallback estimate — and the returned ranking is sorted ascending by the
comparator, which on all-numeric driving times is driving time ascending. -/
theorem searchLocationWithTimes_total_sorted
    (geo : GeoRequest → Option (List RawResult))
    (etNet : ℝ → ℝ → ℝ → ℝ → String → FetchOutcome)
    (query : String) (lat lng : ℝ) (hlat : lat ≠ 0) (hlng : lng ≠ 0) :
    (∀ r ∈ searchLocationWithTimes geo etNet query (some lat) (some lng),
      r.drivingTime = some ((estimateDrivingTime (etNet lat lng r.lat r.lon)
        lat lng r.lat r.lon).duration)) ∧
    List.Sorted timedLe (searchLocationWithTimes geo etNet query (some lat) (some lng)) := by
  have htr : jsTruthy (some lat) = true := by simp [jsTruthy, hlat]
  have htg : jsTruthy (some lng) = true := by simp [jsTruthy, hlng]
  constructor
  · intro r hr
    by_cases hres : (searchLocation geo query (some lat) (some lng)).length = 0
    · have hnil : searchLocation geo query (some lat) (some lng) = [] :=
        List.eq_nil_of_length_eq_zero hres
      simp [searchLocationWithTimes, hnil] at hr
    · simp only [searchLocationWithTimes, htr, htg] at hr
      rw [if_neg (by simp [hres])] at hr
      rw [List.mem_insertionSort] at hr
      obtain ⟨r1, hmem, rfl⟩ := List.mem_map.mp hr
      simp
  · by_cases hres : (searchLocation geo query (some lat) (some lng)).length = 0
    · have hnil : searchLocation geo query (some lat) (some lng) = [] :=
        List.eq_nil_of_length_eq_zero hres
      simp [searchLocationWithTimes, hnil]
    · simp only [searchLocationWithTimes, htr, htg]
      rw [if_neg (by simp [hres])]
      exact List.sorted_insertionSort timedLe _

/-- Witness for the amended C6 at the nonzero reference (1°, 10°). -/
theorem searchLocationWithTimes_total_sorted_witness :
    (1:ℝ) ≠ 0 ∧ (10:ℝ) ≠ 0 ∧
    (∀ r ∈ searchLocationWithTimes c6wgeo c6wnet "q" (some 1) (some 10),
      r.drivingTime = some ((estimateDrivingTime (c6wnet 1 10 r.lat r.lon)
        1 10 r.lat r.lon).duration)) ∧
    List.Sorted timedLe (searchLocationWithTimes c6wgeo c6wnet "q" (some 1) (some 10)) := by
  have h := searchLocationWithTimes_total_sorted c6wgeo c6wnet "q" 1 10
    (by norm_num) (by norm_num)
  exact ⟨by norm_num, by norm_num, h.1, h.2⟩

end RouteOptimizer
